import Mathlib

/-!
Shallow embedding of `webaoa/server.py`, a minimal Flask front-end
controller with three view functions: `Static`, `App` and `Root`.
External state (the `env` module, the ndb-backed private node config and
the filesystem) is passed explicitly; the Flask helpers
`send_from_directory` and `render_template` are embedded with their
documented semantics (path resolution via `safe_join`, 404 on a missing
file, template lookup in the template folder).
-/

namespace WebAOA

/-- Environment flags read from `multitest_transport.util.env`. -/
structure Env where
  IS_DEV_MODE : Bool
  IS_GOOGLE : Bool
deriving DecidableEq, Repr

/-- The private node configuration entity returned by
`ndb_models.GetPrivateNodeConfig()`. -/
structure PrivateNodeConfig where
  metrics_enabled : Bool
deriving DecidableEq, Repr

/-- Lookup of the singleton private node config; the ambient datastore
state is passed explicitly. -/
def GetPrivateNodeConfig (cfg : PrivateNodeConfig) : PrivateNodeConfig := cfg

/-- The filesystem visible to the server: a finite map from full file
paths to file contents. -/
abbrev FileSystem := List (String × String)

/-- Contents of the file at path `p`, when a file exists there. -/
def FileSystem.readFile (fs : FileSystem) (p : String) : Option String :=
  (fs.find? (fun e => e.1 = p)).map Prod.snd

/-- Split a character list at every `/`. -/
def splitSlash : List Char → List Char → List (List Char)
  | [], cur => [cur.reverse]
  | c :: rest, cur =>
      if c = '/' then cur.reverse :: splitSlash rest []
      else splitSlash rest (c :: cur)

/-- Normalisation of a relative posix path, as `posixpath.normpath`:
drops empty and `.` components and cancels `..` against a preceding
component, keeping leading `..` components. -/
def normComponents : List (List Char) → List (List Char) → List (List Char)
  | [], acc => acc.reverse
  | c :: rest, acc =>
      if c = [] ∨ c = ['.'] then normComponents rest acc
      else if c = ['.', '.'] then
        match acc with
        | [] => normComponents rest [['.', '.']]
        | ['.', '.'] :: _ => normComponents rest (['.', '.'] :: acc)
        | _ :: acc' => normComponents rest acc'
      else normComponents rest (c :: acc)

/-- Embedding of werkzeug's `safe_join directory path`: `none` when the
path is absolute or its normal form escapes the directory, otherwise the
joined path. -/
def safe_join (directory path : String) : Option String :=
  match path.data with
  | '/' :: _ => none
  | cs =>
      match normComponents (splitSlash cs []) [] with
      | ['.', '.'] :: _ => none
      | norm =>
          some (norm.foldl (fun acc c => acc ++ "/" ++ String.mk c) directory)

/-- Body of an HTTP response. -/
inductive Body where
  | empty
  | file (content : String)
  | page (templateSource : String) (analytics_tracking_id : String) (is_google : Bool)
deriving DecidableEq, Repr

/-- An HTTP response: a status code and a body. -/
structure Response where
  status : Nat
  body : Body
deriving DecidableEq, Repr

/-- Embedding of `flask.send_from_directory directory path`: resolves
`path` safely inside `directory` and serves the file there, or fails
with 404 Not Found. -/
def send_from_directory (fs : FileSystem) (directory path : String) : Response :=
  match safe_join directory path with
  | none => { status := 404, body := .empty }
  | some full =>
      match fs.readFile full with
      | none => { status := 404, body := .empty }
      | some content => { status := 200, body := .file content }

/-- The Flask application object. -/
structure FlaskApp where
  root_path : String
  static_folder : String
  template_folder : String
deriving Repr

/-- The `APP` Flask application: `root_path` is the package directory,
`static_folder='static'` resolves under it, `template_folder='.'` is the
package directory itself. -/
def APP : FlaskApp :=
  { root_path := "webaoa"
    static_folder := "webaoa/static"
    template_folder := "webaoa" }

/-- Embedding of `flask.render_template name` with the two keyword
arguments passed by `Root`: looks the template up in the template
folder and renders it with the given context, or fails (500) when the
template is missing. -/
def render_template (fs : FileSystem) (name : String)
    (analytics_tracking_id : String) (is_google : Bool) : Response :=
  match fs.readFile (APP.template_folder ++ "/" ++ name) with
  | none => { status := 500, body := .empty }
  | some t => { status := 200, body := .page t analytics_tracking_id is_google }

/-- The `Static` view function: returns static files. The second
component is the filesystem after the call. -/
def Static (fs : FileSystem) (path : String) : Response × FileSystem :=
  (send_from_directory fs APP.static_folder path, fs)

/-- The script chosen by the `App` view function. -/
def appScript (env : Env) : String :=
  if env.IS_DEV_MODE then "dev_sources.concat.js" else "compiled.js"

/-- The `App` view function: returns the application script. -/
def App (fs : FileSystem) (env : Env) : Response × FileSystem :=
  let script := appScript env
  (send_from_directory fs APP.root_path script, fs)

/-- The `Root` view function: routes all other requests to `index.html`;
the captured `path` is deleted unused. -/
def Root (fs : FileSystem) (env : Env) (cfg : PrivateNodeConfig)
    (path : String) : Response × FileSystem :=
  let _ := path
  let analytics_tracking_id := ""
  let analytics_tracking_id :=
    if !env.IS_DEV_MODE && (GetPrivateNodeConfig cfg).metrics_enabled then
      "G-XRN33KLKER"
    else analytics_tracking_id
  (render_template fs "index.html" analytics_tracking_id env.IS_GOOGLE, fs)

/-- The analytics tracking id `Root` passes to the template. -/
def rootAnalyticsId (env : Env) (cfg : PrivateNodeConfig) : String :=
  if !env.IS_DEV_MODE && (GetPrivateNodeConfig cfg).metrics_enabled then
    "G-XRN33KLKER"
  else ""

/-- The three view functions of the application. -/
inductive Handler where
  | StaticH
  | AppH
  | RootH
deriving DecidableEq, Repr

/-- The routing table built by the `@APP.route` decorators, in source
order: one rule for `Static`, one for `App`, two for `Root`. -/
def routes : List (String × Handler) :=
  [("/webaoa/static/<path:path>", .StaticH),
   ("/webaoa/app.js", .AppH),
   ("/webaoa", .RootH),
   ("/webaoa/<path:path>", .RootH)]

/-- Resolution of a static request: the content served by `Static`, when
the path resolves to an existing file inside the static folder. -/
def staticResolve (fs : FileSystem) (path : String) : Option String :=
  (safe_join APP.static_folder path).bind fs.readFile

example : safe_join "webaoa/static" "a.txt" = some "webaoa/static/a.txt" := by decide
example : safe_join "webaoa/static" "../x" = none := by decide
example : safe_join "webaoa/static" "/etc/passwd" = none := by decide
example : safe_join "webaoa/static" "b/../a.txt" = some "webaoa/static/a.txt" := by decide

/-- Helper: `send_from_directory` serves the resolved file when it
exists. -/
theorem send_from_directory_200 (fs : FileSystem) (dir p c : String)
    (h : (safe_join dir p).bind fs.readFile = some c) :
    send_from_directory fs dir p = { status := 200, body := .file c } := by
  unfold send_from_directory
  cases hj : safe_join dir p with
  | none => rw [hj, Option.none_bind] at h; exact Option.noConfusion h
  | some full =>
      rw [hj, Option.some_bind] at h
      simp [h]

/-- Helper: `send_from_directory` fails with 404 when the path does not
resolve to an existing file. -/
theorem send_from_directory_404 (fs : FileSystem) (dir p : String)
    (h : (safe_join dir p).bind fs.readFile = none) :
    send_from_directory fs dir p = { status := 404, body := .empty } := by
  unfold send_from_directory
  cases hj : safe_join dir p with
  | none => rfl
  | some full =>
      rw [hj, Option.some_bind] at h
      simp [h]

/-- Helper: `render_template` returns the page with the given context
when the template file exists. -/
theorem render_template_200 (fs : FileSystem) (name a t : String) (g : Bool)
    (h : fs.readFile (APP.template_folder ++ "/" ++ name) = some t) :
    render_template fs name a g = { status := 200, body := .page t a g } := by
  unfold render_template
  rw [h]

/-- Helper: `safe_join` of the application root with either script name
is the plain join, since both names are single safe components. -/
theorem safe_join_appScript (env : Env) :
    safe_join APP.root_path (appScript env) =
      some (APP.root_path ++ "/" ++ appScript env) := by
  obtain ⟨d, g⟩ := env
  cases d <;> cases g <;> decide

/-- C1 counterexample: with `IS_DEV_MODE` true and `metrics_enabled`
true, `Root` passes a blank analytics tracking id to the template, so
the id is not non-blank whenever `metrics_enabled` is true. -/
theorem root_analytics_blank_despite_metrics :
    (⟨true⟩ : PrivateNodeConfig).metrics_enabled = true ∧
    rootAnalyticsId ⟨true, false⟩ ⟨true⟩ = "" ∧
    (Root [] ⟨true, false⟩ ⟨true⟩ "").1 =
      render_template [] "index.html" "" false := by
  refine ⟨rfl, rfl, rfl⟩

/-- C1 (amended): the analytics id `Root` passes to the template is
blank when `metrics_enabled` is false, and non-blank when
`metrics_enabled` is true and `IS_DEV_MODE` is false. -/
theorem root_analytics_amended (fs : FileSystem) (env : Env)
    (cfg : PrivateNodeConfig) (path : String) :
    (Root fs env cfg path).1 =
      render_template fs "index.html" (rootAnalyticsId env cfg) env.IS_GOOGLE ∧
    (cfg.metrics_enabled = false → rootAnalyticsId env cfg = "") ∧
    (cfg.metrics_enabled = true → env.IS_DEV_MODE = false →
      rootAnalyticsId env cfg ≠ "") := by
  refine ⟨rfl, ?_, ?_⟩ <;>
  · obtain ⟨d, g⟩ := env
    obtain ⟨m⟩ := cfg
    cases d <;> cases m <;> cases g <;> decide

/-- Witness for `root_analytics_amended` at concrete configurations. -/
theorem root_analytics_amended_witness :
    rootAnalyticsId ⟨true, false⟩ ⟨false⟩ = "" ∧
    rootAnalyticsId ⟨false, true⟩ ⟨true⟩ ≠ "" :=
  ⟨(root_analytics_amended [] ⟨true, false⟩ ⟨false⟩ "").2.1 rfl,
   (root_analytics_amended [] ⟨false, true⟩ ⟨true⟩ "").2.2 rfl rfl⟩

/-- C2: `App` streams `appScript env` from the application root, and
that script is `dev_sources.concat.js` exactly when `IS_DEV_MODE` is
true and `compiled.js` exactly when it is false. -/
theorem app_selects_one_of_two_scripts (fs : FileSystem) (env : Env) :
    (App fs env).1 = send_from_directory fs APP.root_path (appScript env) ∧
    (env.IS_DEV_MODE = true → appScript env = "dev_sources.concat.js") ∧
    (env.IS_DEV_MODE = false → appScript env = "compiled.js") ∧
    (appScript env = "dev_sources.concat.js" ∨ appScript env = "compiled.js") := by
  refine ⟨rfl, ?_, ?_, ?_⟩ <;>
  · obtain ⟨d, g⟩ := env
    cases d <;> cases g <;> decide

/-- Witness for `app_selects_one_of_two_scripts` in both modes. -/
theorem app_selects_one_of_two_scripts_witness :
    appScript ⟨true, false⟩ = "dev_sources.concat.js" ∧
    appScript ⟨false, false⟩ = "compiled.js" :=
  ⟨(app_selects_one_of_two_scripts [] ⟨true, false⟩).2.1 rfl,
   (app_selects_one_of_two_scripts [] ⟨false, false⟩).2.2.1 rfl⟩

/-- C3: `Root` renders exactly the template `index.html` with exactly
the two derived values `rootAnalyticsId env cfg` and `env.IS_GOOGLE`;
when the template exists its page body carries exactly those values. -/
theorem root_renders_index (fs : FileSystem) (env : Env)
    (cfg : PrivateNodeConfig) (path : String) :
    (Root fs env cfg path).1 =
      render_template fs "index.html" (rootAnalyticsId env cfg) env.IS_GOOGLE ∧
    (∀ t, fs.readFile (APP.template_folder ++ "/" ++ "index.html") = some t →
      (Root fs env cfg path).1 =
        { status := 200
          body := .page t (rootAnalyticsId env cfg) env.IS_GOOGLE }) := by
  refine ⟨rfl, fun t ht => ?_⟩
  show render_template fs "index.html" (rootAnalyticsId env cfg) env.IS_GOOGLE = _
  rw [render_template, ht]

/-- Witness for `root_renders_index` at a concrete filesystem. -/
theorem root_renders_index_witness :
    (Root [("webaoa/index.html", "tpl")] ⟨false, true⟩ ⟨true⟩ "x").1 =
      { status := 200, body := .page "tpl" "G-XRN33KLKER" true } :=
  (root_renders_index [("webaoa/index.html", "tpl")] ⟨false, true⟩ ⟨true⟩ "x").2
    "tpl" (by decide)

/-- C4: when a path resolves to an existing file inside the static
folder, `Static` returns that file's contents with status 200. -/
theorem static_serves_existing_file (fs : FileSystem) (path content : String)
    (h : staticResolve fs path = some content) :
    (Static fs path).1 = { status := 200, body := .file content } := by
  unfold staticResolve at h
  show send_from_directory fs APP.static_folder path = _
  unfold send_from_directory
  cases hj : safe_join APP.static_folder path with
  | none => rw [hj, Option.none_bind] at h; exact Option.noConfusion h
  | some full =>
      rw [hj, Option.some_bind] at h
      simp [h]

/-- Witness for `static_serves_existing_file` at a concrete file. -/
theorem static_serves_existing_file_witness :
    (Static [("webaoa/static/a.txt", "hello")] "a.txt").1 =
      { status := 200, body := .file "hello" } :=
  static_serves_existing_file [("webaoa/static/a.txt", "hello")] "a.txt" "hello"
    (by decide)

/-- C5: the routing table registers exactly three distinct view
functions, one for static assets, one for the application script and
one for the template, and no other handler occurs. -/
theorem app_has_three_endpoints :
    (routes.map Prod.snd).dedup.length = 3 ∧
    Handler.StaticH ∈ routes.map Prod.snd ∧
    Handler.AppH ∈ routes.map Prod.snd ∧
    Handler.RootH ∈ routes.map Prod.snd ∧
    ∀ h ∈ routes.map Prod.snd,
      h = Handler.StaticH ∨ h = Handler.AppH ∨ h = Handler.RootH := by
  decide

/-- C6: when the backing file or template exists, each of the three
routes returns a 200 response carrying the expected content: the static
file for `Static`, the selected script for `App`, and the rendered
`index.html` page for `Root`. -/
theorem routes_return_expected_content (fs : FileSystem) (env : Env)
    (cfg : PrivateNodeConfig) (p c s t : String)
    (hS : staticResolve fs p = some c)
    (hA : fs.readFile (APP.root_path ++ "/" ++ appScript env) = some s)
    (hT : fs.readFile (APP.template_folder ++ "/" ++ "index.html") = some t) :
    (Static fs p).1 = { status := 200, body := .file c } ∧
    (App fs env).1 = { status := 200, body := .file s } ∧
    (Root fs env cfg p).1 =
      { status := 200
        body := .page t (rootAnalyticsId env cfg) env.IS_GOOGLE } := by
  refine ⟨?_, ?_, ?_⟩
  · exact send_from_directory_200 fs APP.static_folder p c hS
  · show send_from_directory fs APP.root_path (appScript env) = _
    refine send_from_directory_200 fs APP.root_path (appScript env) s ?_
    rw [safe_join_appScript env, Option.some_bind, hA]
  · show render_template fs "index.html" (rootAnalyticsId env cfg) env.IS_GOOGLE = _
    exact render_template_200 fs "index.html" (rootAnalyticsId env cfg) t
      env.IS_GOOGLE hT

/-- Witness for `routes_return_expected_content` on a filesystem holding
all three backing files. -/
theorem routes_return_expected_content_witness :
    (Static [("webaoa/static/a.txt", "hello"), ("webaoa/compiled.js", "js"),
        ("webaoa/index.html", "tpl")] "a.txt").1 =
      { status := 200, body := .file "hello" } ∧
    (App [("webaoa/static/a.txt", "hello"), ("webaoa/compiled.js", "js"),
        ("webaoa/index.html", "tpl")] ⟨false, true⟩).1 =
      { status := 200, body := .file "js" } ∧
    (Root [("webaoa/static/a.txt", "hello"), ("webaoa/compiled.js", "js"),
        ("webaoa/index.html", "tpl")] ⟨false, true⟩ ⟨false⟩ "any").1 =
      { status := 200, body := .page "tpl" "" true } :=
  routes_return_expected_content
    [("webaoa/static/a.txt", "hello"), ("webaoa/compiled.js", "js"),
     ("webaoa/index.html", "tpl")] ⟨false, true⟩ ⟨false⟩ "a.txt"
    "hello" "js" "tpl" (by decide) (by decide) (by decide)

/-- C7: the `Root` response is independent of the captured path, and
both the bare `/webaoa` rule and the catch-all rule dispatch to `Root`. -/
theorem root_ignores_path (fs : FileSystem) (env : Env)
    (cfg : PrivateNodeConfig) (p1 p2 : String) :
    Root fs env cfg p1 = Root fs env cfg p2 ∧
    ("/webaoa", Handler.RootH) ∈ routes ∧
    ("/webaoa/<path:path>", Handler.RootH) ∈ routes :=
  ⟨rfl, by decide, by decide⟩

/-- C8: in dev mode the analytics id `Root` passes to the template is
blank, and the id takes one of exactly two values: blank or the literal
`G-XRN33KLKER`. -/
theorem root_analytics_two_values (fs : FileSystem) (env : Env)
    (cfg : PrivateNodeConfig) (path : String) :
    (Root fs env cfg path).1 =
      render_template fs "index.html" (rootAnalyticsId env cfg) env.IS_GOOGLE ∧
    (env.IS_DEV_MODE = true → rootAnalyticsId env cfg = "") ∧
    (rootAnalyticsId env cfg ≠ "" → rootAnalyticsId env cfg = "G-XRN33KLKER") ∧
    (rootAnalyticsId env cfg = "" ∨ rootAnalyticsId env cfg = "G-XRN33KLKER") := by
  refine ⟨rfl, ?_, ?_, ?_⟩ <;>
  · obtain ⟨d, g⟩ := env
    obtain ⟨m⟩ := cfg
    cases d <;> cases m <;> cases g <;> decide

/-- Witness for `root_analytics_two_values` at concrete configurations. -/
theorem root_analytics_two_values_witness :
    rootAnalyticsId ⟨true, false⟩ ⟨true⟩ = "" ∧
    rootAnalyticsId ⟨false, false⟩ ⟨true⟩ = "G-XRN33KLKER" :=
  ⟨(root_analytics_two_values [] ⟨true, false⟩ ⟨true⟩ "").2.1 rfl,
   (root_analytics_two_values [] ⟨false, false⟩ ⟨true⟩ "").2.2.1 (by decide)⟩

/-- C9: when the path does not resolve to an existing file inside the
static folder (a missing file or an escaping path), `Static` fails with
404 Not Found, serves no file content, and leaves the filesystem
unchanged. -/
theorem static_missing_file_404 (fs : FileSystem) (path : String)
    (h : staticResolve fs path = none) :
    (Static fs path).1.status = 404 ∧ (Static fs path).1.body = Body.empty ∧
    (Static fs path).2 = fs := by
  unfold staticResolve at h
  have e : (Static fs path).1 = { status := 404, body := .empty } :=
    send_from_directory_404 fs APP.static_folder path h
  exact ⟨by rw [e], by rw [e], rfl⟩

/-- Witness for `static_missing_file_404` on an escaping path. -/
theorem static_missing_file_404_witness :
    (Static [("webaoa/static/a.txt", "hello")] "../a.txt").1.status = 404 ∧
    (Static [("webaoa/static/a.txt", "hello")] "../a.txt").1.body = Body.empty ∧
    (Static [("webaoa/static/a.txt", "hello")] "../a.txt").2 =
      [("webaoa/static/a.txt", "hello")] :=
  static_missing_file_404 [("webaoa/static/a.txt", "hello")] "../a.txt"
    (by decide)

end WebAOA
